import Mathlib

/-!
Shallow embedding of `scripts/demo.py` from the Keynesian-Economics
repository fragment.

The script is a linear brownie orchestration: it deploys two contracts
(`Turnstile`, `Keynes`), attaches to the two NFT contracts the `Keynes`
deployment created, and then issues a fixed sequence of transactions and
state reads, interleaved with Python `assert` statements and two
`chain.sleep` calls.  The smart-contract code itself is not part of the
source fragment, so every value the external system returns to the script
(view-call results, the `startAuction` return value, account balances) is
supplied by an environment `Env`; the script itself is the function
`demoRun : Env → List Event`, which emits the script's externally visible
actions in order and stops at the first failed assertion, exactly as a
failed Python `assert` aborts the run.

Account indices follow the script: `a[0] = 0`, `gov = a[1]`, `user = a[2]`,
`bidder = a[3]`, and the repayment transactions are sent from `a[5]`.
The literal `amount = 1e18` in the script is the Python float `1e18`,
which represents the integer `10^18` exactly (and `amount * 10` is exactly
`10^19`); brownie passes these to the chain as integers, so they are
embedded as the natural numbers `10^18` and `10^19`.
-/

namespace Demo

/-- The contracts (and the test-harness account state) the script talks to. -/
inductive Target where
  | turnstile
  | keynes
  | fixedNft
  | borrowerNft
  | chainAccount
deriving DecidableEq, Repr

/-- The external methods the script invokes, one constructor per method name
appearing in `demo.py` (`nativeBalance` stands for the brownie
`account.balance()` read of native account state). -/
inductive Method where
  | deploy
  | FIXED_LOAN_NFT
  | BORROWER_NFT
  | register
  | getTokenId
  | distributeFees
  | balances
  | approve
  | startAuction
  | bid
  | finalizeAuction
  | loans
  | repayWithClaimable
  | withdrawPayable
  | withdrawNFT
  | balanceOf
  | nativeBalance
deriving DecidableEq, Repr, Fintype

/-- One externally visible action of the script:
a state-changing transaction `tx target method args sender value`,
a read `view target method args ret` returning `ret`,
a simulated-time advance `sleep secs`,
or an assertion check `check ok`. -/
inductive Event where
  | tx (t : Target) (m : Method) (args : List Nat) (sender : Nat) (value : Nat)
  | view (t : Target) (m : Method) (args : List Nat) (ret : Nat)
  | sleep (secs : Nat)
  | check (ok : Bool)
deriving DecidableEq, Repr

/-- Everything the external system hands back to the script, one field per
read occurrence in program order.  `loans` returns a record; the script
only prints it, so each observation is embedded as an opaque `Nat`. -/
structure Env where
  fixedAddr : Nat      -- keynes.FIXED_LOAN_NFT()
  borrowerAddr : Nat   -- keynes.BORROWER_NFT()
  tokenId : Nat        -- turnstile.getTokenId(user)
  balancesVal : Nat    -- turnstile.balances(token_id_to_loan)
  bidderInitial : Nat  -- bidder.balance() before the auction
  auctionId : Nat      -- startAuction(...).return_value
  borrowerBal : Nat    -- borrower_nft.balanceOf(user)
  fixedBal : Nat       -- fixed_nft.balanceOf(bidder)
  loansA : Nat         -- keynes.loans(1), before first repayment
  loansB : Nat         -- keynes.loans(1), after first repayment
  loansC : Nat         -- keynes.loans(1), bare read after second repayment
  loansD : Nat         -- keynes.loans(1), printed after second repayment
  bidderBal1 : Nat     -- bidder.balance() printed after withdrawPayable
  userTBal0 : Nat      -- turnstile.balanceOf(user), before withdrawNFT
  userTBal1 : Nat      -- turnstile.balanceOf(user), bare read after withdrawNFT
  bidderBal2 : Nat     -- bidder.balance() printed as "Borrower withdraws"
  userTBal2 : Nat      -- turnstile.balanceOf(user), printed after withdrawNFT
  bidderFinal : Nat    -- bidder.balance() in the final assert
deriving DecidableEq, Repr

/-- `gov = a[1]`. -/
def gov : Nat := 1

/-- `user = a[2]`. -/
def user : Nat := 2

/-- `bidder = a[3]`. -/
def bidder : Nat := 3

/-- `amount = 1e18` (the float `1e18` is exactly `10^18`). -/
def amount : Nat := 10 ^ 18

/-- Address at which the harness deploys `Turnstile` (its exact value is
irrelevant to the script's behaviour). -/
def turnstileAddr : Nat := 1000

/-- Address at which the harness deploys `Keynes`. -/
def keynesAddr : Nat := 1001

open Event Method Target in
/-- The trace of externally visible actions of `quick_demo`, for an external
system answering the script's reads with `e`.  The linear structure mirrors
the script line by line; each `if` corresponds to one Python `assert`, and a
failed assertion ends the trace (an uncaught `AssertionError` aborts the
script), so no event after a failed `check` is ever emitted. -/
def demoRun (e : Env) : List Event :=
  [ tx .turnstile .deploy [] gov 0,
    tx .keynes .deploy [turnstileAddr] gov 0,
    view .keynes .FIXED_LOAN_NFT [] e.fixedAddr,
    view .keynes .BORROWER_NFT [] e.borrowerAddr,
    tx .turnstile .register [user] user 0,
    view .turnstile .getTokenId [user] e.tokenId,
    tx .turnstile .distributeFees [e.tokenId] gov (amount * 10),
    view .turnstile .balances [e.tokenId] e.balancesVal,
    check (decide (0 < e.balancesVal)) ] ++
  (if 0 < e.balancesVal then
    [ view .chainAccount .nativeBalance [bidder] e.bidderInitial,
      tx .turnstile .approve [keynesAddr, e.tokenId] user 0,
      tx .keynes .startAuction [amount, 1000, e.tokenId] user 0,
      tx .keynes .bid [e.auctionId, 999] bidder amount,
      sleep (24 * 60 * 60),
      tx .keynes .finalizeAuction [e.auctionId] 0 0,
      view .borrowerNft .balanceOf [user] e.borrowerBal,
      check (decide (e.borrowerBal = 1)) ] ++
    (if e.borrowerBal = 1 then
      [ view .fixedNft .balanceOf [bidder] e.fixedBal,
        check (decide (e.fixedBal = 1)) ] ++
      (if e.fixedBal = 1 then
        [ view .keynes .loans [1] e.loansA,
          tx .keynes .repayWithClaimable [1] 5 0,
          view .keynes .loans [1] e.loansB,
          sleep 2000,
          tx .keynes .repayWithClaimable [1] 5 0,
          view .keynes .loans [1] e.loansC,
          view .keynes .loans [1] e.loansD,
          tx .keynes .withdrawPayable [1, 0] bidder 0,
          view .chainAccount .nativeBalance [bidder] e.bidderBal1,
          view .turnstile .balanceOf [user] e.userTBal0,
          tx .keynes .withdrawNFT [1] user 0,
          view .turnstile .balanceOf [user] e.userTBal1,
          view .chainAccount .nativeBalance [bidder] e.bidderBal2,
          view .turnstile .balanceOf [user] e.userTBal2,
          view .chainAccount .nativeBalance [bidder] e.bidderFinal,
          check (decide (e.bidderInitial < e.bidderFinal)) ]
      else [])
    else [])
  else [])

/-- The run reaches the end of the script: all four assertions pass. -/
def completes (e : Env) : Bool :=
  decide (0 < e.balancesVal) && decide (e.borrowerBal = 1) &&
    decide (e.fixedBal = 1) && decide (e.bidderInitial < e.bidderFinal)

/-- The sequence of state-changing transaction methods, in issue order. -/
def txMethods (l : List Event) : List Method :=
  l.filterMap fun ev =>
    match ev with
    | .tx _ m _ _ _ => some m
    | _ => none

/-- Order in which the script issues its transactions when no assertion
fails: two deployments, then register, distributeFees, approve,
startAuction, bid, finalizeAuction, the two repayments, and the two
withdrawals. -/
def fullTxMethods : List Method :=
  [.deploy, .deploy, .register, .distributeFees, .approve, .startAuction,
   .bid, .finalizeAuction, .repayWithClaimable, .repayWithClaimable,
   .withdrawPayable, .withdrawNFT]

/-- The sequence of simulated-time advances, in issue order. -/
def sleepsOf (l : List Event) : List Nat :=
  l.filterMap fun ev =>
    match ev with
    | .sleep s => some s
    | _ => none

/-- The number of assertion checks the run performed. -/
def countChecks (l : List Event) : Nat :=
  l.countP fun ev =>
    match ev with
    | .check _ => true
    | _ => false

/-- `true` iff no event at all follows a failed assertion check in `l`. -/
def stopsAtFailedCheck : List Event → Bool
  | [] => true
  | .check b :: rest => if b then stopsAtFailedCheck rest else rest.isEmpty
  | .tx _ _ _ _ _ :: rest => stopsAtFailedCheck rest
  | .view _ _ _ _ :: rest => stopsAtFailedCheck rest
  | .sleep _ :: rest => stopsAtFailedCheck rest

/-- `true` iff a `finalizeAuction` transaction occurs before any 24-hour
(`86400`-second) time advance. -/
def finalizeBeforeDaySleep : List Event → Bool
  | [] => false
  | .tx _ m _ _ _ :: rest =>
      if m = .finalizeAuction then true else finalizeBeforeDaySleep rest
  | .sleep s :: rest => if s = 86400 then false else finalizeBeforeDaySleep rest
  | .view _ _ _ _ :: rest => finalizeBeforeDaySleep rest
  | .check _ :: rest => finalizeBeforeDaySleep rest

/-- The loan identifiers passed to the loan operations `loans`,
`repayWithClaimable`, `withdrawPayable` and `withdrawNFT`, in order. -/
def loanOpIds (l : List Event) : List Nat :=
  l.filterMap fun ev =>
    match ev with
    | .tx _ .repayWithClaimable (i :: _) _ _ => some i
    | .tx _ .withdrawPayable (i :: _) _ _ => some i
    | .tx _ .withdrawNFT (i :: _) _ _ => some i
    | .view _ .loans (i :: _) _ => some i
    | _ => none

/-- The auction identifiers passed to `bid` and `finalizeAuction`, in order. -/
def auctionOpIds (l : List Event) : List Nat :=
  l.filterMap fun ev =>
    match ev with
    | .tx _ .bid (i :: _) _ _ => some i
    | .tx _ .finalizeAuction (i :: _) _ _ => some i
    | _ => none

/-- The methods of all external contract calls in `l`, transactions and view
calls alike; the brownie `account.balance()` read (`nativeBalance`) is
account state of the harness, not a contract method, and is excluded. -/
def contractMethodsCalled (l : List Event) : List Method :=
  l.filterMap fun ev =>
    match ev with
    | .tx _ m _ _ _ => if m = .nativeBalance then none else some m
    | .view _ m _ _ => if m = .nativeBalance then none else some m
    | _ => none

/-- The contract methods the spec's §6 lists as the script's entire surface. -/
def specSurface : List Method :=
  [.deploy, .register, .distributeFees, .approve, .startAuction, .bid,
   .finalizeAuction, .repayWithClaimable, .withdrawPayable, .withdrawNFT,
   .loans, .balanceOf]

/-- The externally-defined read-only methods the script calls although they
are not in the spec's §6 list: the `getTokenId` and `balances` getters of
`Turnstile` and the `FIXED_LOAN_NFT` / `BORROWER_NFT` getters of `Keynes`. -/
def readExtras : List Method :=
  [.getTokenId, .balances, .FIXED_LOAN_NFT, .BORROWER_NFT]

/-- The `value` fields attached to the transactions with method `m`. -/
def txValuesOf (m : Method) (l : List Event) : List Nat :=
  l.filterMap fun ev =>
    match ev with
    | .tx _ m' _ _ v => if m' = m then some v else none
    | _ => none

/-- The argument lists of the transactions with method `m`. -/
def txArgsOf (m : Method) (l : List Event) : List (List Nat) :=
  l.filterMap fun ev =>
    match ev with
    | .tx _ m' as _ _ => if m' = m then some as else none
    | _ => none

/-- `true` iff `ev` is a `turnstile.balanceOf` read. -/
def isTurnstileBalRead : Event → Bool
  | .view t m _ _ => decide (t = .turnstile) && decide (m = .balanceOf)
  | _ => false

/-- The number of `turnstile.balanceOf` reads issued after the
`withdrawNFT` transaction. -/
def readsAfterWithdrawNFT : List Event → Nat
  | [] => 0
  | .tx _ m _ _ _ :: rest =>
      if m = .withdrawNFT then rest.countP isTurnstileBalRead
      else readsAfterWithdrawNFT rest
  | .view _ _ _ _ :: rest => readsAfterWithdrawNFT rest
  | .sleep _ :: rest => readsAfterWithdrawNFT rest
  | .check _ :: rest => readsAfterWithdrawNFT rest

/-- A sample environment in which every assertion of the script passes. -/
def envOK : Env :=
  { fixedAddr := 201, borrowerAddr := 202, tokenId := 7, balancesVal := 5,
    bidderInitial := 50, auctionId := 3, borrowerBal := 1, fixedBal := 1,
    loansA := 40, loansB := 0, loansC := 0, loansD := 0, bidderBal1 := 60,
    userTBal0 := 0, userTBal1 := 1, bidderBal2 := 60, userTBal2 := 1,
    bidderFinal := 60 }

/-- Modelled from the spec: the `Keynes` contract source is absent from the
fragment, so its loan record is modelled from spec §8, which states
"repaying fully zeroes remaining debt and further repayment is a no-op".
A loan carries its remaining debt and the amount accrued for the lender to
withdraw. -/
structure Loan where
  debt : Nat
  payable : Nat
deriving DecidableEq, Repr

/-- Modelled from the spec: the `Keynes.repayWithClaimable` implementation is
absent from the fragment; per spec §8 it applies the loan's claimable fee
balance to the remaining debt, so it pays `min debt claimable` — repaying
fully (claimable ≥ debt) zeroes the remaining debt, and a repayment when no
debt remains moves nothing. -/
def repayWithClaimable (l : Loan) (claimable : Nat) : Loan :=
  { debt := l.debt - min l.debt claimable,
    payable := l.payable + min l.debt claimable }

/-- Modelled from the spec: the `Keynes.withdrawPayable` implementation is
absent from the fragment; per spec §8 "withdrawal strictly increases the
withdrawer's balance", so it pays the loan's accrued payable amount out to
the withdrawer's balance. -/
def withdrawPayable (balance payout : Nat) : Nat :=
  balance + payout

/-- Modelled from the spec: the `Keynes.withdrawNFT` implementation is absent
from the fragment; per spec §8 withdrawal increases the withdrawer's
balance — for the borrower's NFT withdrawal, the escrowed turnstile NFT is
returned, increasing the borrower's NFT balance by one. -/
def withdrawNFT (nftBalance : Nat) : Nat :=
  nftBalance + 1

end Demo

namespace Demo

/-- Unfolding of `completes` into the four assertion conditions. -/
theorem completes_iff (e : Env) :
    completes e = true ↔
      0 < e.balancesVal ∧ e.borrowerBal = 1 ∧ e.fixedBal = 1 ∧
        e.bidderInitial < e.bidderFinal := by
  simp [completes, and_assoc]

/-- Claim C1: in every run the script issues its transactions in the fixed
order (deployments, register, distributeFees, approve, startAuction, bid,
finalizeAuction, the repayments, withdrawPayable, withdrawNFT) — the issued
transaction sequence is always an initial segment of `fullTxMethods`, and a
run in which every assertion passes issues exactly that sequence.  Each call
completes before the next begins: the trace is a single ordered list. -/
theorem c1_tx_order (e : Env) :
    (∃ n, txMethods (demoRun e) = fullTxMethods.take n) ∧
      (completes e = true → txMethods (demoRun e) = fullTxMethods) := by
  constructor
  · by_cases h1 : 0 < e.balancesVal
    · by_cases h2 : e.borrowerBal = 1
      · by_cases h3 : e.fixedBal = 1
        · exact ⟨12, by simp [demoRun, txMethods, fullTxMethods, h1, h2, h3]⟩
        · exact ⟨8, by simp [demoRun, txMethods, fullTxMethods, h1, h2, h3]⟩
      · exact ⟨8, by simp [demoRun, txMethods, fullTxMethods, h1, h2]⟩
    · exact ⟨4, by simp [demoRun, txMethods, fullTxMethods, h1]⟩
  · intro hc
    obtain ⟨h1, h2, h3, h4⟩ := (completes_iff e).mp hc
    simp [demoRun, txMethods, fullTxMethods, h1, h2, h3]

/-- Witness for C1 at a concrete completing environment. -/
theorem c1_tx_order_witness :
    completes envOK = true ∧ txMethods (demoRun envOK) = fullTxMethods :=
  ⟨by decide, (c1_tx_order envOK).2 (by decide)⟩

/-- Claim C2: in every run that passes its assertions, the borrower-NFT
balance the script reads for `user` after `finalizeAuction` is exactly `1`,
and the fixed-loan-NFT balance it reads for `bidder` is exactly `1`; the
corresponding read events with result `1` occur in the trace. -/
theorem c2_nft_balances (e : Env) (hc : completes e = true) :
    e.borrowerBal = 1 ∧ e.fixedBal = 1 ∧
      Event.view .borrowerNft .balanceOf [user] 1 ∈ demoRun e ∧
      Event.view .fixedNft .balanceOf [bidder] 1 ∈ demoRun e := by
  obtain ⟨h1, h2, h3, h4⟩ := (completes_iff e).mp hc
  refine ⟨h2, h3, ?_, ?_⟩ <;> simp [demoRun, h1, h2, h3]

/-- Witness for C2 at a concrete completing environment. -/
theorem c2_nft_balances_witness :
    envOK.borrowerBal = 1 ∧ envOK.fixedBal = 1 ∧
      Event.view .borrowerNft .balanceOf [user] 1 ∈ demoRun envOK ∧
      Event.view .fixedNft .balanceOf [bidder] 1 ∈ demoRun envOK :=
  c2_nft_balances envOK (by decide)


/-- Claim C3: in every completing run the script issues the first
`repayWithClaimable(1)`, reads `loans(1)`, advances simulated time by 2000
seconds, and issues the second `repayWithClaimable(1)`; and in the modelled
loan accounting, a repayment covering the whole debt zeroes it, after which
any further repayment leaves the loan record unchanged. -/
theorem c3_repay_noop (e : Env) (l : Loan) (c c' : Nat)
    (hc : completes e = true) (hfull : l.debt ≤ c) :
    (∃ pre suf, demoRun e =
      pre ++ Event.tx .keynes .repayWithClaimable [1] 5 0 ::
        Event.view .keynes .loans [1] e.loansB :: Event.sleep 2000 ::
        Event.tx .keynes .repayWithClaimable [1] 5 0 :: suf) ∧
      (repayWithClaimable l c).debt = 0 ∧
      repayWithClaimable (repayWithClaimable l c) c' = repayWithClaimable l c := by
  obtain ⟨h1, h2, h3, h4⟩ := (completes_iff e).mp hc
  refine ⟨⟨[ Event.tx .turnstile .deploy [] gov 0,
      Event.tx .keynes .deploy [turnstileAddr] gov 0,
      Event.view .keynes .FIXED_LOAN_NFT [] e.fixedAddr,
      Event.view .keynes .BORROWER_NFT [] e.borrowerAddr,
      Event.tx .turnstile .register [user] user 0,
      Event.view .turnstile .getTokenId [user] e.tokenId,
      Event.tx .turnstile .distributeFees [e.tokenId] gov (amount * 10),
      Event.view .turnstile .balances [e.tokenId] e.balancesVal,
      Event.check true,
      Event.view .chainAccount .nativeBalance [bidder] e.bidderInitial,
      Event.tx .turnstile .approve [keynesAddr, e.tokenId] user 0,
      Event.tx .keynes .startAuction [amount, 1000, e.tokenId] user 0,
      Event.tx .keynes .bid [e.auctionId, 999] bidder amount,
      Event.sleep (24 * 60 * 60),
      Event.tx .keynes .finalizeAuction [e.auctionId] 0 0,
      Event.view .borrowerNft .balanceOf [user] 1,
      Event.check true,
      Event.view .fixedNft .balanceOf [bidder] 1,
      Event.check true,
      Event.view .keynes .loans [1] e.loansA ],
    [ Event.view .keynes .loans [1] e.loansC,
      Event.view .keynes .loans [1] e.loansD,
      Event.tx .keynes .withdrawPayable [1, 0] bidder 0,
      Event.view .chainAccount .nativeBalance [bidder] e.bidderBal1,
      Event.view .turnstile .balanceOf [user] e.userTBal0,
      Event.tx .keynes .withdrawNFT [1] user 0,
      Event.view .turnstile .balanceOf [user] e.userTBal1,
      Event.view .chainAccount .nativeBalance [bidder] e.bidderBal2,
      Event.view .turnstile .balanceOf [user] e.userTBal2,
      Event.view .chainAccount .nativeBalance [bidder] e.bidderFinal,
      Event.check true ], ?_⟩, ?_, ?_⟩
  · simp [demoRun, h1, h2, h3, h4]
  · simp [repayWithClaimable, Nat.min_eq_left hfull]
  · simp [repayWithClaimable, Nat.min_eq_left hfull]

/-- Witness for C3 at a concrete completing environment and a concrete
fully-covered loan. -/
theorem c3_repay_noop_witness :
    (∃ pre suf, demoRun envOK =
      pre ++ Event.tx .keynes .repayWithClaimable [1] 5 0 ::
        Event.view .keynes .loans [1] envOK.loansB :: Event.sleep 2000 ::
        Event.tx .keynes .repayWithClaimable [1] 5 0 :: suf) ∧
      (repayWithClaimable ⟨40, 0⟩ 100).debt = 0 ∧
      repayWithClaimable (repayWithClaimable ⟨40, 0⟩ 100) 7 =
        repayWithClaimable ⟨40, 0⟩ 100 :=
  c3_repay_noop envOK ⟨40, 0⟩ 100 7 (by decide) (by decide)

/-- Claim C4: in every completing run the script's final assertion holds,
so the bidder's final balance strictly exceeds the balance recorded before
the auction was created; the trace contains the lender's
`withdrawPayable(1, 0)` and the borrower's `withdrawNFT(1)`; and in the
modelled contract behaviour each withdrawal strictly increases the
withdrawer's balance whenever a positive amount is withdrawable. -/
theorem c4_withdraw_increases (e : Env) (b p n : Nat)
    (hc : completes e = true) (hp : 0 < p) :
    e.bidderInitial < e.bidderFinal ∧
      Event.tx .keynes .withdrawPayable [1, 0] bidder 0 ∈ demoRun e ∧
      Event.tx .keynes .withdrawNFT [1] user 0 ∈ demoRun e ∧
      b < withdrawPayable b p ∧ n < withdrawNFT n := by
  obtain ⟨h1, h2, h3, h4⟩ := (completes_iff e).mp hc
  refine ⟨h4, ?_, ?_, ?_, ?_⟩
  · simp [demoRun, h1, h2, h3]
  · simp [demoRun, h1, h2, h3]
  · simp [withdrawPayable]; omega
  · simp [withdrawNFT]

/-- Witness for C4 at a concrete completing environment. -/
theorem c4_withdraw_increases_witness :
    envOK.bidderInitial < envOK.bidderFinal ∧
      Event.tx .keynes .withdrawPayable [1, 0] bidder 0 ∈ demoRun envOK ∧
      Event.tx .keynes .withdrawNFT [1] user 0 ∈ demoRun envOK ∧
      5 < withdrawPayable 5 2 ∧ 0 < withdrawNFT 0 :=
  c4_withdraw_increases envOK 5 2 0 (by decide) (by decide)

/-- Claim C5: the script performs at most four assertion checks in any run
and exactly four in a completing run; these checks are its only failure
handling — a failed check ends the run with no further event (in particular
no later transaction), so there is no retry or recovery path. -/
theorem c5_assertions_only (e : Env) :
    countChecks (demoRun e) ≤ 4 ∧
      (completes e = true → countChecks (demoRun e) = 4) ∧
      stopsAtFailedCheck (demoRun e) = true := by
  refine ⟨?_, ?_, ?_⟩
  · by_cases h1 : 0 < e.balancesVal
    · by_cases h2 : e.borrowerBal = 1
      · by_cases h3 : e.fixedBal = 1
        · simp [demoRun, countChecks, h1, h2, h3]
        · simp [demoRun, countChecks, h1, h2, h3]
      · simp [demoRun, countChecks, h1, h2]
    · simp [demoRun, countChecks, h1]
  · intro hc
    obtain ⟨h1, h2, h3, h4⟩ := (completes_iff e).mp hc
    simp [demoRun, countChecks, h1, h2, h3]
  · by_cases h1 : 0 < e.balancesVal
    · by_cases h2 : e.borrowerBal = 1
      · by_cases h3 : e.fixedBal = 1
        · by_cases h4 : e.bidderInitial < e.bidderFinal
          · simp [demoRun, stopsAtFailedCheck, h1, h2, h3, h4]
          · simp [demoRun, stopsAtFailedCheck, h1, h2, h3, h4]
        · simp [demoRun, stopsAtFailedCheck, h1, h2, h3]
      · simp [demoRun, stopsAtFailedCheck, h1, h2]
    · simp [demoRun, stopsAtFailedCheck, h1]

/-- Witness for C5 at a concrete completing environment. -/
theorem c5_assertions_only_witness :
    countChecks (demoRun envOK) ≤ 4 ∧
      (completes envOK = true → countChecks (demoRun envOK) = 4) ∧
      stopsAtFailedCheck (demoRun envOK) = true :=
  c5_assertions_only envOK

/-- Claim C6: in every completing run, simulated time is advanced exactly
twice — by 86400 seconds and then by 2000 seconds; the 86400-second advance
immediately precedes the `finalizeAuction` transaction, the 2000-second
advance occurs between the two `repayWithClaimable(1)` transactions, and no
`finalizeAuction` transaction occurs before the 24-hour advance. -/
theorem c6_time_advances (e : Env) (hc : completes e = true) :
    sleepsOf (demoRun e) = [24 * 60 * 60, 2000] ∧
      (∃ pre suf, demoRun e =
        pre ++ Event.sleep (24 * 60 * 60) ::
          Event.tx .keynes .finalizeAuction [e.auctionId] 0 0 :: suf) ∧
      (∃ pre suf, demoRun e =
        pre ++ Event.tx .keynes .repayWithClaimable [1] 5 0 ::
          Event.view .keynes .loans [1] e.loansB :: Event.sleep 2000 ::
          Event.tx .keynes .repayWithClaimable [1] 5 0 :: suf) ∧
      finalizeBeforeDaySleep (demoRun e) = false := by
  obtain ⟨h1, h2, h3, h4⟩ := (completes_iff e).mp hc
  refine ⟨?_, ⟨[ Event.tx .turnstile .deploy [] gov 0,
      Event.tx .keynes .deploy [turnstileAddr] gov 0,
      Event.view .keynes .FIXED_LOAN_NFT [] e.fixedAddr,
      Event.view .keynes .BORROWER_NFT [] e.borrowerAddr,
      Event.tx .turnstile .register [user] user 0,
      Event.view .turnstile .getTokenId [user] e.tokenId,
      Event.tx .turnstile .distributeFees [e.tokenId] gov (amount * 10),
      Event.view .turnstile .balances [e.tokenId] e.balancesVal,
      Event.check true,
      Event.view .chainAccount .nativeBalance [bidder] e.bidderInitial,
      Event.tx .turnstile .approve [keynesAddr, e.tokenId] user 0,
      Event.tx .keynes .startAuction [amount, 1000, e.tokenId] user 0,
      Event.tx .keynes .bid [e.auctionId, 999] bidder amount ],
    [ Event.view .borrowerNft .balanceOf [user] 1,
      Event.check true,
      Event.view .fixedNft .balanceOf [bidder] 1,
      Event.check true,
      Event.view .keynes .loans [1] e.loansA,
      Event.tx .keynes .repayWithClaimable [1] 5 0,
      Event.view .keynes .loans [1] e.loansB,
      Event.sleep 2000,
      Event.tx .keynes .repayWithClaimable [1] 5 0,
      Event.view .keynes .loans [1] e.loansC,
      Event.view .keynes .loans [1] e.loansD,
      Event.tx .keynes .withdrawPayable [1, 0] bidder 0,
      Event.view .chainAccount .nativeBalance [bidder] e.bidderBal1,
      Event.view .turnstile .balanceOf [user] e.userTBal0,
      Event.tx .keynes .withdrawNFT [1] user 0,
      Event.view .turnstile .balanceOf [user] e.userTBal1,
      Event.view .chainAccount .nativeBalance [bidder] e.bidderBal2,
      Event.view .turnstile .balanceOf [user] e.userTBal2,
      Event.view .chainAccount .nativeBalance [bidder] e.bidderFinal,
      Event.check true ], ?_⟩, ⟨[ Event.tx .turnstile .deploy [] gov 0,
      Event.tx .keynes .deploy [turnstileAddr] gov 0,
      Event.view .keynes .FIXED_LOAN_NFT [] e.fixedAddr,
      Event.view .keynes .BORROWER_NFT [] e.borrowerAddr,
      Event.tx .turnstile .register [user] user 0,
      Event.view .turnstile .getTokenId [user] e.tokenId,
      Event.tx .turnstile .distributeFees [e.tokenId] gov (amount * 10),
      Event.view .turnstile .balances [e.tokenId] e.balancesVal,
      Event.check true,
      Event.view .chainAccount .nativeBalance [bidder] e.bidderInitial,
      Event.tx .turnstile .approve [keynesAddr, e.tokenId] user 0,
      Event.tx .keynes .startAuction [amount, 1000, e.tokenId] user 0,
      Event.tx .keynes .bid [e.auctionId, 999] bidder amount,
      Event.sleep (24 * 60 * 60),
      Event.tx .keynes .finalizeAuction [e.auctionId] 0 0,
      Event.view .borrowerNft .balanceOf [user] 1,
      Event.check true,
      Event.view .fixedNft .balanceOf [bidder] 1,
      Event.check true,
      Event.view .keynes .loans [1] e.loansA ],
    [ Event.view .keynes .loans [1] e.loansC,
      Event.view .keynes .loans [1] e.loansD,
      Event.tx .keynes .withdrawPayable [1, 0] bidder 0,
      Event.view .chainAccount .nativeBalance [bidder] e.bidderBal1,
      Event.view .turnstile .balanceOf [user] e.userTBal0,
      Event.tx .keynes .withdrawNFT [1] user 0,
      Event.view .turnstile .balanceOf [user] e.userTBal1,
      Event.view .chainAccount .nativeBalance [bidder] e.bidderBal2,
      Event.view .turnstile .balanceOf [user] e.userTBal2,
      Event.view .chainAccount .nativeBalance [bidder] e.bidderFinal,
      Event.check true ], ?_⟩, ?_⟩
  · simp [demoRun, sleepsOf, h1, h2, h3]
  · simp [demoRun, h1, h2, h3, h4]
  · simp [demoRun, h1, h2, h3, h4]
  · simp [demoRun, finalizeBeforeDaySleep, h1, h2, h3]

/-- Witness for C6 at a concrete completing environment. -/
theorem c6_time_advances_witness :
    sleepsOf (demoRun envOK) = [24 * 60 * 60, 2000] ∧
      (∃ pre suf, demoRun envOK =
        pre ++ Event.sleep (24 * 60 * 60) ::
          Event.tx .keynes .finalizeAuction [envOK.auctionId] 0 0 :: suf) ∧
      (∃ pre suf, demoRun envOK =
        pre ++ Event.tx .keynes .repayWithClaimable [1] 5 0 ::
          Event.view .keynes .loans [1] envOK.loansB :: Event.sleep 2000 ::
          Event.tx .keynes .repayWithClaimable [1] 5 0 :: suf) ∧
      finalizeBeforeDaySleep (demoRun envOK) = false :=
  c6_time_advances envOK (by decide)

/-- Claim C7 counterexample: the claim that the script calls no
externally-defined contract method outside the spec's §6 list fails —
already in a concrete completing run, the script calls the contract method
`getTokenId`, which is not in the list. -/
theorem c7_counterexample :
    Method.getTokenId ∈ contractMethodsCalled (demoRun envOK) ∧
      Method.getTokenId ∉ specSurface := by decide

/-- Claim C7 (amended): every state-changing transaction the script issues
uses a method from the spec's §6 list, and every contract method it calls is
either in that list or one of the four additional read-only getters
(`getTokenId`, `balances`, `FIXED_LOAN_NFT`, `BORROWER_NFT`); in a
completing run every method of the list and every extra getter is called. -/
theorem c7_surface (e : Env) :
    (∀ m ∈ txMethods (demoRun e), m ∈ specSurface) ∧
      (∀ m ∈ contractMethodsCalled (demoRun e),
        m ∈ specSurface ∨ m ∈ readExtras) ∧
      (completes e = true →
        ∀ m, (m ∈ specSurface ∨ m ∈ readExtras) →
          m ∈ contractMethodsCalled (demoRun e)) := by
  refine ⟨?_, ?_, ?_⟩
  · by_cases h1 : 0 < e.balancesVal
    · by_cases h2 : e.borrowerBal = 1
      · by_cases h3 : e.fixedBal = 1
        · have h : txMethods (demoRun e) = fullTxMethods := by
            simp [demoRun, txMethods, fullTxMethods, h1, h2, h3]
          rw [h]; decide
        · have h : txMethods (demoRun e) = fullTxMethods.take 8 := by
            simp [demoRun, txMethods, fullTxMethods, h1, h2, h3]
          rw [h]; decide
      · have h : txMethods (demoRun e) = fullTxMethods.take 8 := by
          simp [demoRun, txMethods, fullTxMethods, h1, h2]
        rw [h]; decide
    · have h : txMethods (demoRun e) = fullTxMethods.take 4 := by
        simp [demoRun, txMethods, fullTxMethods, h1]
      rw [h]; decide
  · by_cases h1 : 0 < e.balancesVal
    · by_cases h2 : e.borrowerBal = 1
      · by_cases h3 : e.fixedBal = 1
        · have h : contractMethodsCalled (demoRun e) =
              [.deploy, .deploy, .FIXED_LOAN_NFT, .BORROWER_NFT, .register,
               .getTokenId, .distributeFees, .balances, .approve,
               .startAuction, .bid, .finalizeAuction, .balanceOf, .balanceOf,
               .loans, .repayWithClaimable, .loans, .repayWithClaimable,
               .loans, .loans, .withdrawPayable, .balanceOf, .withdrawNFT,
               .balanceOf, .balanceOf] := by
            simp [demoRun, contractMethodsCalled, h1, h2, h3]
          rw [h]; decide
        · have h : contractMethodsCalled (demoRun e) =
              [.deploy, .deploy, .FIXED_LOAN_NFT, .BORROWER_NFT, .register,
               .getTokenId, .distributeFees, .balances, .approve,
               .startAuction, .bid, .finalizeAuction, .balanceOf,
               .balanceOf] := by
            simp [demoRun, contractMethodsCalled, h1, h2, h3]
          rw [h]; decide
      · have h : contractMethodsCalled (demoRun e) =
            [.deploy, .deploy, .FIXED_LOAN_NFT, .BORROWER_NFT, .register,
             .getTokenId, .distributeFees, .balances, .approve,
             .startAuction, .bid, .finalizeAuction, .balanceOf] := by
          simp [demoRun, contractMethodsCalled, h1, h2]
        rw [h]; decide
    · have h : contractMethodsCalled (demoRun e) =
          [.deploy, .deploy, .FIXED_LOAN_NFT, .BORROWER_NFT, .register,
           .getTokenId, .distributeFees, .balances] := by
        simp [demoRun, contractMethodsCalled, h1]
      rw [h]; decide
  · intro hc
    obtain ⟨h1, h2, h3, h4⟩ := (completes_iff e).mp hc
    have h : contractMethodsCalled (demoRun e) =
        [.deploy, .deploy, .FIXED_LOAN_NFT, .BORROWER_NFT, .register,
         .getTokenId, .distributeFees, .balances, .approve,
         .startAuction, .bid, .finalizeAuction, .balanceOf, .balanceOf,
         .loans, .repayWithClaimable, .loans, .repayWithClaimable,
         .loans, .loans, .withdrawPayable, .balanceOf, .withdrawNFT,
         .balanceOf, .balanceOf] := by
      simp [demoRun, contractMethodsCalled, h1, h2, h3]
    rw [h]; decide

/-- Witness for C7's amended theorem at a concrete completing environment. -/
theorem c7_surface_witness :
    (∀ m ∈ txMethods (demoRun envOK), m ∈ specSurface) ∧
      (∀ m ∈ contractMethodsCalled (demoRun envOK),
        m ∈ specSurface ∨ m ∈ readExtras) ∧
      (completes envOK = true →
        ∀ m, (m ∈ specSurface ∨ m ∈ readExtras) →
          m ∈ contractMethodsCalled (demoRun envOK)) :=
  c7_surface envOK

/-- Claim C8: in every run, every loan operation (`loans`,
`repayWithClaimable`, `withdrawPayable`, `withdrawNFT`) is invoked with the
constant loan identifier 1 — whatever auction identifier `startAuction`
returned — while `bid` and `finalizeAuction` are the only operations that
receive the returned auction identifier; a completing run performs exactly
eight loan operations with identifier 1 and two auction operations with the
returned identifier. -/
theorem c8_loan_id_constant (e : Env) :
    (∀ i ∈ loanOpIds (demoRun e), i = 1) ∧
      (∀ i ∈ auctionOpIds (demoRun e), i = e.auctionId) ∧
      (completes e = true →
        loanOpIds (demoRun e) = [1, 1, 1, 1, 1, 1, 1, 1] ∧
          auctionOpIds (demoRun e) = [e.auctionId, e.auctionId]) := by
  refine ⟨?_, ?_, ?_⟩
  · by_cases h1 : 0 < e.balancesVal
    · by_cases h2 : e.borrowerBal = 1
      · by_cases h3 : e.fixedBal = 1
        · simp [demoRun, loanOpIds, h1, h2, h3]
        · simp [demoRun, loanOpIds, h1, h2, h3]
      · simp [demoRun, loanOpIds, h1, h2]
    · simp [demoRun, loanOpIds, h1]
  · by_cases h1 : 0 < e.balancesVal
    · by_cases h2 : e.borrowerBal = 1
      · by_cases h3 : e.fixedBal = 1
        · simp [demoRun, auctionOpIds, h1, h2, h3]
        · simp [demoRun, auctionOpIds, h1, h2, h3]
      · simp [demoRun, auctionOpIds, h1, h2]
    · simp [demoRun, auctionOpIds, h1]
  · intro hc
    obtain ⟨h1, h2, h3, h4⟩ := (completes_iff e).mp hc
    constructor
    · simp [demoRun, loanOpIds, h1, h2, h3]
    · simp [demoRun, auctionOpIds, h1, h2, h3]

/-- Witness for C8 at a concrete completing environment. -/
theorem c8_loan_id_constant_witness :
    (∀ i ∈ loanOpIds (demoRun envOK), i = 1) ∧
      (∀ i ∈ auctionOpIds (demoRun envOK), i = envOK.auctionId) ∧
      (completes envOK = true →
        loanOpIds (demoRun envOK) = [1, 1, 1, 1, 1, 1, 1, 1] ∧
          auctionOpIds (demoRun envOK) = [envOK.auctionId, envOK.auctionId]) :=
  c8_loan_id_constant envOK

/-- Claim C9: in every completing run the loan amount is exactly `10^18` wei
(the `startAuction` amount argument and the value attached to `bid`), the
value attached to `distributeFees` is exactly `10^19` wei (ten times the
loan amount), and the bid rate 999 is strictly below the auction rate
1000. -/
theorem c9_amounts (e : Env) (hc : completes e = true) :
    amount = 10 ^ 18 ∧
      txValuesOf .distributeFees (demoRun e) = [10 ^ 19] ∧
      txArgsOf .startAuction (demoRun e) = [[amount, 1000, e.tokenId]] ∧
      txValuesOf .bid (demoRun e) = [amount] ∧
      txArgsOf .bid (demoRun e) = [[e.auctionId, 999]] ∧
      999 < 1000 := by
  obtain ⟨h1, h2, h3, h4⟩ := (completes_iff e).mp hc
  refine ⟨rfl, ?_, ?_, ?_, ?_, by norm_num⟩
  · have h : txValuesOf .distributeFees (demoRun e) = [amount * 10] := by
      simp [demoRun, txValuesOf, h1, h2, h3]
    rw [h]; norm_num [amount]
  · simp [demoRun, txArgsOf, h1, h2, h3]
  · simp [demoRun, txValuesOf, h1, h2, h3]
  · simp [demoRun, txArgsOf, h1, h2, h3]

/-- Witness for C9 at a concrete completing environment. -/
theorem c9_amounts_witness :
    amount = 10 ^ 18 ∧
      txValuesOf .distributeFees (demoRun envOK) = [10 ^ 19] ∧
      txArgsOf .startAuction (demoRun envOK) = [[amount, 1000, envOK.tokenId]] ∧
      txValuesOf .bid (demoRun envOK) = [amount] ∧
      txArgsOf .bid (demoRun envOK) = [[envOK.auctionId, 999]] ∧
      999 < 1000 :=
  c9_amounts envOK (by decide)

/-- Claim C10: the two `turnstile.balanceOf(user)` reads the script issues
after `withdrawNFT(1)` are never checked — replacing the values those reads
return changes neither whether the run completes nor the transactions
issued — and a completing run issues exactly two such reads after the
`withdrawNFT` transaction. -/
theorem c10_unchecked_reads (e : Env) (x y : Nat) :
    completes { e with userTBal1 := x, userTBal2 := y } = completes e ∧
      txMethods (demoRun { e with userTBal1 := x, userTBal2 := y }) =
        txMethods (demoRun e) ∧
      (completes e = true → readsAfterWithdrawNFT (demoRun e) = 2) := by
  refine ⟨rfl, ?_, ?_⟩
  · by_cases h1 : 0 < e.balancesVal
    · by_cases h2 : e.borrowerBal = 1
      · by_cases h3 : e.fixedBal = 1
        · simp [demoRun, txMethods, h1, h2, h3]
        · simp [demoRun, txMethods, h1, h2, h3]
      · simp [demoRun, txMethods, h1, h2]
    · simp [demoRun, txMethods, h1]
  · intro hc
    obtain ⟨h1, h2, h3, h4⟩ := (completes_iff e).mp hc
    simp [demoRun, readsAfterWithdrawNFT, isTurnstileBalRead, h1, h2, h3]

/-- Witness for C10 at a concrete completing environment. -/
theorem c10_unchecked_reads_witness :
    completes { envOK with userTBal1 := 9, userTBal2 := 9 } = completes envOK ∧
      txMethods (demoRun { envOK with userTBal1 := 9, userTBal2 := 9 }) =
        txMethods (demoRun envOK) ∧
      (completes envOK = true → readsAfterWithdrawNFT (demoRun envOK) = 2) :=
  c10_unchecked_reads envOK 9 9

end Demo

